import Mathlib

/-!
Verification development for the `ensync_simple` browser example
(`src/ensync/simple/{main,browser,browserwindow,util}.py`).

Shallow embedding: Python dicts become association lists keyed by
`id(object)` (a `Nat`), signal handlers become pure functions on explicit
state, side effects become event traces, and fallible attribute access
becomes `Except`.
-/

set_option autoImplicit false

namespace Ensync

/-! ## Python dict model

Python `dict` preserves insertion order; assigning to an existing key
updates the value in place, `pop(k, default)` removes the entry when
present and returns the default otherwise. -/

/-- Lookup in an insertion-ordered association list (Python `d[k]` / `d.get(k)`). -/
def dictLookup {κ α : Type} [DecidableEq κ] : List (κ × α) → κ → Option α
  | [], _ => none
  | (k, v) :: rest, key => if k = key then some v else dictLookup rest key

/-- Python `d[k] = v`: update in place when the key exists, append otherwise. -/
def dictInsert {κ α : Type} [DecidableEq κ] (m : List (κ × α)) (k : κ) (v : α) : List (κ × α) :=
  if (dictLookup m k).isSome then
    m.map (fun p => if p.1 = k then (k, v) else p)
  else
    m ++ [(k, v)]

/-- Python `d.pop(k, None)`: the removed value (or `none`) and the remaining dict. -/
def dictPop {κ α : Type} [DecidableEq κ] (m : List (κ × α)) (k : κ) :
    Option α × List (κ × α) :=
  match dictLookup m k with
  | some v => (some v, m.filter (fun p => decide (p.1 ≠ k)))
  | none => (none, m)

/-! ## Web-engine profile model (`browser.py`)

`QWebEngineProfile` objects are modelled by their observable state:
an identity (`pid`, modelling Python/Qt object identity), the storage
name, the off-the-record flag, the web-attribute settings, and how many
times `downloadRequested` was connected to the download manager. -/

/-- The web attributes used by `Browser.configure_profile` and `run_main`. -/
inductive WebAttribute
  | PluginsEnabled
  | DnsPrefetchEnabled
  | LocalContentCanAccessRemoteUrls
  | LocalContentCanAccessFileUrls
  | FullScreenSupportEnabled
deriving DecidableEq, Repr

structure ProfileObj where
  pid : Nat
  name : String
  offTheRecord : Bool
  attrs : List (WebAttribute × Bool)
  downloadConnections : Nat
deriving DecidableEq, Repr

/-- Toolkit-supplied environment read by `Browser.get_profile`:
`QCoreApplication.instance().applicationName()`,
`qWebEngineChromiumVersion()` and `QWebEngineProfile.defaultProfile()`. -/
structure QtEnv where
  applicationName : String
  chromiumVersion : String
  defaultProfile : ProfileObj
deriving Repr

/-- `settings.setAttribute(attr, state)` on a profile. -/
def setAttribute (p : ProfileObj) (attr : WebAttribute) (state : Bool) : ProfileObj :=
  { p with attrs := dictInsert p.attrs attr state }

/-- `Browser.configure_profile`: set each attribute of `options` in order. -/
def configure_profile (p : ProfileObj) (options : List (WebAttribute × Bool)) : ProfileObj :=
  options.foldl (fun q ab => setAttribute q ab.1 ab.2) p

/-- The literal options dict passed by `Browser.get_profile` (browser.py lines 61-67). -/
def get_profile_options : List (WebAttribute × Bool) :=
  [(WebAttribute.PluginsEnabled, true),
   (WebAttribute.DnsPrefetchEnabled, true),
   (WebAttribute.LocalContentCanAccessRemoteUrls, true),
   (WebAttribute.LocalContentCanAccessFileUrls, false),
   (WebAttribute.FullScreenSupportEnabled, true)]

/-! ## Browser window and registry model (`browser.py`) -/

/-- A `BaseBrowserWindow` as seen by the `Browser` registry: its Python
identity `wid` (= `id(window)`), its profile, whether it is a
`DevToolsWindow`, and whether `about_to_close` was connected to
`Browser._remove_window`. -/
structure BWindow where
  wid : Nat
  profile : ProfileObj
  devTools : Bool
  aboutToCloseConnected : Bool
deriving DecidableEq, Repr

/-- The mutable state of a `Browser` object: the `_windows` registry
(a dict from `id(window)` to the window) and the lazily created named
profile `_profile` (absent until first `get_profile(private=False)`,
modelling the `AttributeError` protocol). -/
structure BrowserState where
  windows : List (Nat × BWindow)
  profile : Option ProfileObj
deriving DecidableEq, Repr

/-- `Browser.__init__`: empty registry, no `_profile` attribute yet. -/
def Browser.init : BrowserState := { windows := [], profile := none }

/-- Events recorded by registry operations: lock acquire/release of
`_state_lock` and the dict mutations performed while running. -/
inductive RegEvent
  | acquire
  | release
  | insertW (wid : Nat)
  | removeW (wid : Nat)
deriving DecidableEq, Repr

/-- Every dict mutation in the trace happens while the lock depth is
positive, and acquire/release stay balanced. -/
def locked_mutations : List RegEvent → Nat → Bool
  | [], d => decide (d = 0)
  | RegEvent.acquire :: rest, d => locked_mutations rest (d + 1)
  | RegEvent.release :: rest, d => decide (0 < d) && locked_mutations rest (d - 1)
  | RegEvent.insertW _ :: rest, d => decide (0 < d) && locked_mutations rest d
  | RegEvent.removeW _ :: rest, d => decide (0 < d) && locked_mutations rest d

/-- Events recorded by `get_profile`. -/
inductive ProfileEvent
  | createProfile (name : String)
  | connectDownload
deriving DecidableEq, Repr

/-- `Browser.get_profile(private)`: the default profile when private,
otherwise the cached `_profile`, created on first use under the state
lock. `freshPid` models the identity of a newly allocated
`QWebEngineProfile`. Returns (profile, new state, events). -/
def get_profile (env : QtEnv) (s : BrowserState) (freshPid : Nat) (priv : Bool) :
    ProfileObj × BrowserState × List ProfileEvent :=
  if priv then
    (env.defaultProfile, s, [])
  else
    match s.profile with
    | some p => (p, s, [])
    | none =>
      let name := env.applicationName ++ "." ++ env.chromiumVersion
      let p0 : ProfileObj :=
        { pid := freshPid, name := name, offTheRecord := false,
          attrs := [], downloadConnections := 0 }
      let p1 := configure_profile p0 get_profile_options
      let p2 := { p1 with downloadConnections := p1.downloadConnections + 1 }
      (p2, { s with profile := some p2 }, [ProfileEvent.createProfile name, ProfileEvent.connectDownload])

/-- `Browser._add_window`: insert the window under `id(window)` while
holding `_state_lock`. -/
def add_window (s : BrowserState) (w : BWindow) : BrowserState × List RegEvent :=
  ({ s with windows := dictInsert s.windows w.wid w },
   [RegEvent.acquire, RegEvent.insertW w.wid, RegEvent.release])

/-- `Browser._remove_window`: pop the sender's entry (default `None`)
while holding `_state_lock`. Returns ((new state, popped window), events). -/
def remove_window (s : BrowserState) (senderWid : Nat) :
    (BrowserState × Option BWindow) × List RegEvent :=
  let pw := dictPop s.windows senderWid
  (({ s with windows := pw.2 }, pw.1),
   [RegEvent.acquire, RegEvent.removeW senderWid, RegEvent.release])

/-- `Browser.each_window`: yield the values currently in `_windows`
(under the lock). -/
def each_window (s : BrowserState) : List BWindow :=
  s.windows.map Prod.snd

/-- `Browser.create_hidden_window`: get the profile, construct a
`BrowserWindow`, register it, connect `about_to_close` to
`_remove_window`. `freshWid` models `id(window)` of the new object. -/
def create_hidden_window (env : QtEnv) (s : BrowserState) (freshPid freshWid : Nat)
    (priv : Bool) : BWindow × BrowserState × List RegEvent :=
  let pr := get_profile env s freshPid priv
  let w : BWindow :=
    { wid := freshWid, profile := pr.1, devTools := false, aboutToCloseConnected := true }
  let ae := add_window pr.2.1 w
  (w, ae.1, ae.2)

/-- `Browser.create_window`: `create_hidden_window` followed by
`window.show()` (a toolkit call with no registry effect). -/
def create_window (env : QtEnv) (s : BrowserState) (freshPid freshWid : Nat)
    (priv : Bool) : BWindow × BrowserState × List RegEvent :=
  create_hidden_window env s freshPid freshWid priv

/-- `Browser.create_dev_tools_window`: like `create_hidden_window` but
constructing a `DevToolsWindow`, then `show()`. -/
def create_dev_tools_window (env : QtEnv) (s : BrowserState) (freshPid freshWid : Nat)
    (priv : Bool) : BWindow × BrowserState × List RegEvent :=
  let pr := get_profile env s freshPid priv
  let w : BWindow :=
    { wid := freshWid, profile := pr.1, devTools := true, aboutToCloseConnected := true }
  let ae := add_window pr.2.1 w
  (w, ae.1, ae.2)

/-! ## Browser window behaviour (`browserwindow.py`) -/

/-- Qt key codes used by `remove_backspace` (Qt namespace constants). -/
def Key_Backspace : Nat := 0x01000003

def Key_unknown : Nat := 0x01ffffff

/-- A key binding as inspected by `remove_backspace`: `binding.firstKeyCode`
is the value of `key[0].key()` on the `QKeySequence`, and `tag` carries the
rest of the binding (unused by the function, kept so distinct bindings with
the same key stay distinguishable). -/
structure KeyBinding where
  firstKeyCode : Nat
  tag : Nat
deriving DecidableEq, Repr

/-- The loop condition `(key[0].key() & Qt.Key_unknown) == Qt.Key_Backspace`. -/
def is_backspace (k : KeyBinding) : Bool :=
  decide (k.firstKeyCode &&& Key_unknown = Key_Backspace)

/-- The `for i, key in enumerate(result): if ...: del result[i]; break`
loop of `remove_backspace`: walk the list and delete the first entry whose
condition holds, stopping there. -/
def remove_backspace_loop : List KeyBinding → List KeyBinding
  | [] => []
  | k :: rest => if is_backspace k then rest else k :: remove_backspace_loop rest

/-- `remove_backspace(keys)` (browserwindow.py lines 32-39): copy the list
(`result = keys.copy()`), delete the entry at the first index whose
condition holds, `break`. Returns (the result list, the caller's argument
list after the call); `del result[i]` mutates only the copy, so the second
component is the argument unchanged. -/
def remove_backspace (keys : List KeyBinding) : List KeyBinding × List KeyBinding :=
  (remove_backspace_loop keys, keys)

/-- Result of a `QMessageBox.warning` confirmation: `Yes` or `No`
(`No` is the default button). -/
inductive MBResult
  | yes
  | no
deriving DecidableEq, Repr

/-- Outcome of `BaseBrowserWindow.closeEvent`: whether the close event was
accepted (vs `event.ignore()`), whether a confirmation dialog was shown,
whether `about_to_close` was emitted, and whether `deleteLater` was
scheduled. -/
structure CloseOutcome where
  accepted : Bool
  dialogShown : Bool
  emittedAboutToClose : Bool
  scheduledDelete : Bool
deriving DecidableEq, Repr

/-- `BaseBrowserWindow.closeEvent` (browserwindow.py lines 173-186):
`count` is `self._tab_widget.count()`, `user` the dialog answer (consulted
only when the dialog is shown). -/
def closeEvent (count : Nat) (user : MBResult) : CloseOutcome :=
  if count > 1 then
    if user = MBResult.no then
      { accepted := false, dialogShown := true,
        emittedAboutToClose := false, scheduledDelete := false }
    else
      { accepted := true, dialogShown := true,
        emittedAboutToClose := true, scheduledDelete := true }
  else
    { accepted := true, dialogShown := false,
      emittedAboutToClose := true, scheduledDelete := true }

/-- `closeEvent` on a window registered in browser state `s`, composed with
the `about_to_close` → `Browser._remove_window` connection: the registry
shrinks exactly when the signal is emitted. -/
def window_close (s : BrowserState) (wid : Nat) (count : Nat) (user : MBResult) :
    CloseOutcome × BrowserState :=
  let o := closeEvent count user
  if o.emittedAboutToClose then (o, ((remove_window s wid).1).1) else (o, s)

/-- `BaseBrowserWindow.handle_web_view_title_changed` (lines 141-147):
the window title as a function of `self._profile.isOffTheRecord()` and the
(optional, possibly empty hence falsy) `title` argument. -/
def handle_web_view_title_changed (otr : Bool) (title : Option String) : String :=
  let suffix := if otr then "Simple (Incognito)" else "Simple"
  match title with
  | some t => if t = "" then suffix else t ++ " - " ++ suffix
  | none => suffix

/-- A `QWebEngineFindTextResult` as read by `handle_find_text_finished`. -/
structure FindTextResult where
  numberOfMatches : Nat
  activeMatch : Nat
deriving DecidableEq, Repr

/-- The string-valued instance attributes a `BaseBrowserWindow` object
carries: `__init__` assigns `self._last_search = ""` (line 54) and
`handle_find_action_triggered` reassigns it; no method ever assigns
`_lastSearch`. -/
structure WindowAttrs where
  last_search : String
deriving DecidableEq, Repr

/-- Python attribute lookup on a `BaseBrowserWindow` restricted to its
string attributes: any other name raises `AttributeError`. -/
def getattr_str (w : WindowAttrs) (name : String) : Except String String :=
  if name = "_last_search" then Except.ok w.last_search
  else Except.error ("AttributeError: " ++ name)

/-- `BaseBrowserWindow.handle_find_text_finished` (lines 207-214): the
status-bar message it shows, or the exception it raises. The zero-match
branch reads `self._lastSearch`; the other branch reads
`self._last_search`. -/
def handle_find_text_finished (w : WindowAttrs) (result : FindTextResult) :
    Except String String :=
  if result.numberOfMatches = 0 then
    match getattr_str w ("_lastSearch") with
    | Except.ok s => Except.ok ("\"" ++ s ++ "\" not found.")
    | Except.error e => Except.error e
  else
    match getattr_str w ("_last_search") with
    | Except.ok s =>
      Except.ok ("\"" ++ s ++ "\" found: " ++ toString result.activeMatch
        ++ "/" ++ toString result.numberOfMatches)
    | Except.error e => Except.error e

/-! ## Command line and process exit (`main.py`) -/

/-- The result of `parser.parse_known_args()` for the parser built in
`run_main` (main.py lines 38-43): the `--single-process`/`-s` store-true
flag, the `url` positional list (`nargs="*"`), and the unrecognized
leftover arguments. -/
structure ParsedArgs where
  single_process : Bool
  url : List String
  rest : List String
deriving DecidableEq, Repr

/-- `parse_known_args` over the command-line tokens (program name already
stripped), modelling argparse for this parser configuration: a token equal
to `--single-process` or `-s` sets the flag and is consumed; any other
token starting with a dash (except a bare `-`, which argparse treats as a
positional) is unrecognized and lands in the leftovers; everything else is
collected by the `url` positional. -/
def parse_known_args : List String → ParsedArgs
  | [] => { single_process := false, url := [], rest := [] }
  | a :: more =>
    let r := parse_known_args more
    if a = "--single-process" ∨ a = "-s" then
      { r with single_process := true }
    else if a ≠ "-" ∧ a.startsWith ("-") then
      { r with rest := a :: r.rest }
    else
      { r with url := a :: r.url }

/-- The argument list handed to `QApplication` (main.py lines 48-52):
`[sys.argv[0]]`, then `["--webEngineArgs", "--single-process"]` when the
flag was given, then the unrecognized leftovers. -/
def build_app_args (argv0 : String) (ns : ParsedArgs) : List String :=
  [argv0]
    ++ (if ns.single_process then ["--webEngineArgs", "--single-process"] else [])
    ++ ns.rest

/-- The engine's own command line: Qt WebEngine passes the arguments after
the `--webEngineArgs` separator on to the embedded engine. -/
def engine_args (args : List String) : List String :=
  (args.dropWhile (fun a => decide (a ≠ "--webEngineArgs"))).drop 1

/-- The observable actions of the URL loop in `run_main`
(main.py lines 66-77). -/
inductive MainAction
  | deleteCurrentTab
  | readStdin
  | loadContentNewTab (html : String) (mimeType : String) (baseUrl : String) (background : Bool)
  | loadUrlNewTab (u : String) (background : Bool)
deriving DecidableEq, Repr

/-- The `for url in arg_urls` loop body: `content` starts as `None`; the
first `-` reads stdin once and loads it as `text/html` (the default
`mime_type` of `load_content_new_tab`) in a background tab; later `-`
arguments find `content` already set and do nothing; any other argument is
loaded in a new background tab (`load_url_new_tab(url, True)`). -/
def process_urls_go (stdin : String) (content : Option String) :
    List String → List MainAction
  | [] => []
  | u :: more =>
    if u = "-" then
      match content with
      | none =>
        MainAction.readStdin
          :: MainAction.loadContentNewTab stdin ("text/html") ("about:") true
          :: process_urls_go stdin (some stdin) more
      | some _ => process_urls_go stdin content more
    else
      MainAction.loadUrlNewTab u true :: process_urls_go stdin content more

/-- The whole URL-argument block of `run_main`: when `arg_urls` is
non-empty, the initial blank tab is discarded
(`window.current_tab().deleteLater()`) and the loop runs; when it is
empty, nothing happens. -/
def process_urls (stdin : String) (urls : List String) : List MainAction :=
  if urls = [] then []
  else MainAction.deleteCurrentTab :: process_urls_go stdin none urls

/-- Extract the URLs loaded by `load_url_new_tab`, in order, with their
`background` flag. -/
def loadedUrls : List MainAction → List (String × Bool)
  | [] => []
  | MainAction.loadUrlNewTab u b :: rest => (u, b) :: loadedUrls rest
  | _ :: rest => loadedUrls rest

/-- Extract the contents loaded by `load_content_new_tab`, in order. -/
def loadedContents : List MainAction → List (String × String × String × Bool)
  | [] => []
  | MainAction.loadContentNewTab h m b bg :: rest => (h, m, b, bg) :: loadedContents rest
  | _ :: rest => loadedContents rest

/-- Number of `sys.stdin.read()` calls in the trace. -/
def stdinReadCount : List MainAction → Nat
  | [] => 0
  | MainAction.readStdin :: rest => stdinReadCount rest + 1
  | _ :: rest => stdinReadCount rest

/-- What `app.exec()` did: returned an exit code, or raised. -/
inductive ExecOutcome
  | ok (rc : Int)
  | exn (e : String)
deriving DecidableEq, Repr

/-- How `run_main` finished. -/
structure MainExit where
  exitCode : Int
  tracebackPrinted : Bool
deriving DecidableEq, Repr

/-- The tail of `run_main` (main.py lines 79-86): `rc = 0`; try
`rc = app.exec()`; on any exception set `rc = 1`, print the traceback to
stderr and call `app.exit(rc)`; finally `sys.exit(rc)`. -/
def run_main_exit (r : ExecOutcome) : MainExit :=
  match r with
  | ExecOutcome.ok rc => { exitCode := rc, tracebackPrinted := false }
  | ExecOutcome.exn _ => { exitCode := 1, tracebackPrinted := true }

/-- Run a sequence of `get_profile` calls (each a fresh pid and the
`private` flag), threading the browser state and collecting all events. -/
def run_get_profile (env : QtEnv) (s : BrowserState) :
    List (Nat × Bool) → BrowserState × List ProfileEvent
  | [] => (s, [])
  | c :: more =>
    let r := get_profile env s c.1 c.2
    let rest := run_get_profile env r.2.1 more
    (rest.1, r.2.2 ++ rest.2)

/-- Number of `QWebEngineProfile` constructions in an event trace. -/
def createCount (evs : List ProfileEvent) : Nat :=
  evs.countP (fun e =>
    match e with
    | ProfileEvent.createProfile _ => true
    | _ => false)

/-! ## Helper lemmas about the dict model -/

theorem dictLookup_map_update {κ α : Type} [DecidableEq κ] (m : List (κ × α)) (k : κ) (v : α) :
    dictLookup (m.map (fun p => if p.1 = k then (k, v) else p)) k
      = if (dictLookup m k).isSome then some v else none := by
  induction m with
  | nil => rfl
  | cons hd tl ih =>
    rw [List.map_cons]
    by_cases h : hd.1 = k
    · rw [if_pos h]
      rw [show dictLookup ((k, v) :: List.map (fun p => if p.1 = k then (k, v) else p) tl) k
            = if k = k then some v
              else dictLookup (List.map (fun p => if p.1 = k then (k, v) else p) tl) k from rfl]
      rw [if_pos rfl]
      rw [show dictLookup (hd :: tl) k = if hd.1 = k then some hd.2 else dictLookup tl k from rfl]
      rw [if_pos h]
      rfl
    · rw [if_neg h]
      rw [show dictLookup (hd :: List.map (fun p => if p.1 = k then (k, v) else p) tl) k
            = if hd.1 = k then some hd.2
              else dictLookup (List.map (fun p => if p.1 = k then (k, v) else p) tl) k from rfl]
      rw [if_neg h, ih]
      rw [show dictLookup (hd :: tl) k = if hd.1 = k then some hd.2 else dictLookup tl k from rfl]
      rw [if_neg h]

theorem dictLookup_map_update_ne {κ α : Type} [DecidableEq κ] (m : List (κ × α)) (k key : κ)
    (v : α) (hne : key ≠ k) :
    dictLookup (m.map (fun p => if p.1 = k then (k, v) else p)) key = dictLookup m key := by
  induction m with
  | nil => rfl
  | cons hd tl ih =>
    rw [List.map_cons]
    rw [show dictLookup (hd :: tl) key
          = if hd.1 = key then some hd.2 else dictLookup tl key from rfl]
    by_cases h : hd.1 = k
    · rw [if_pos h]
      rw [show dictLookup ((k, v) :: List.map (fun p => if p.1 = k then (k, v) else p) tl) key
            = if k = key then some v
              else dictLookup (List.map (fun p => if p.1 = k then (k, v) else p) tl) key from rfl]
      rw [if_neg (fun he => hne he.symm), ih]
      have h2 : ¬ hd.1 = key := by rw [h]; exact fun he => hne he.symm
      rw [if_neg h2]
    · rw [if_neg h]
      rw [show dictLookup (hd :: List.map (fun p => if p.1 = k then (k, v) else p) tl) key
            = if hd.1 = key then some hd.2
              else dictLookup (List.map (fun p => if p.1 = k then (k, v) else p) tl) key from rfl]
      rw [ih]

theorem dictLookup_append_right {κ α : Type} [DecidableEq κ] (m : List (κ × α)) (k : κ) (v : α)
    (h : dictLookup m k = none) :
    dictLookup (m ++ [(k, v)]) k = some v := by
  induction m with
  | nil =>
    rw [List.nil_append]
    rw [show dictLookup [(k, v)] k = if k = k then some v else dictLookup ([] : List (κ × α)) k from rfl]
    rw [if_pos rfl]
  | cons hd tl ih =>
    rw [show dictLookup (hd :: tl) k = if hd.1 = k then some hd.2 else dictLookup tl k from rfl] at h
    by_cases hh : hd.1 = k
    · rw [if_pos hh] at h
      exact absurd h (by simp)
    · rw [if_neg hh] at h
      rw [List.cons_append]
      rw [show dictLookup (hd :: (tl ++ [(k, v)])) k
            = if hd.1 = k then some hd.2 else dictLookup (tl ++ [(k, v)]) k from rfl]
      rw [if_neg hh]
      exact ih h

theorem dictLookup_append_ne {κ α : Type} [DecidableEq κ] (m : List (κ × α)) (k key : κ) (v : α)
    (hne : key ≠ k) :
    dictLookup (m ++ [(k, v)]) key = dictLookup m key := by
  induction m with
  | nil =>
    rw [List.nil_append]
    rw [show dictLookup [(k, v)] key
          = if k = key then some v else dictLookup ([] : List (κ × α)) key from rfl]
    rw [if_neg (fun he => hne he.symm)]
  | cons hd tl ih =>
    rw [List.cons_append]
    rw [show dictLookup (hd :: (tl ++ [(k, v)])) key
          = if hd.1 = key then some hd.2 else dictLookup (tl ++ [(k, v)]) key from rfl]
    rw [show dictLookup (hd :: tl) key
          = if hd.1 = key then some hd.2 else dictLookup tl key from rfl]
    rw [ih]

/-- Lookup after `dictInsert`: the inserted key maps to the new value,
every other key is untouched. -/
theorem dictLookup_dictInsert {κ α : Type} [DecidableEq κ] (m : List (κ × α)) (k key : κ)
    (v : α) :
    dictLookup (dictInsert m k v) key
      = if key = k then some v else dictLookup m key := by
  by_cases hs : (dictLookup m k).isSome
  · by_cases he : key = k
    · subst he
      simp [dictInsert, hs, dictLookup_map_update, hs]
    · simp [dictInsert, hs, dictLookup_map_update_ne m k key v he, he]
  · have hnone : dictLookup m k = none := by
      cases h : dictLookup m k with
      | none => rfl
      | some w => rw [h] at hs; simp at hs
    by_cases he : key = k
    · subst he
      simp [dictInsert, hs, dictLookup_append_right m key v hnone]
    · simp [dictInsert, hs, dictLookup_append_ne m k key v he, he]

theorem dictLookup_filter_self {κ α : Type} [DecidableEq κ] (m : List (κ × α)) (k : κ) :
    dictLookup (m.filter (fun p => decide (p.1 ≠ k))) k = none := by
  induction m with
  | nil => rfl
  | cons hd tl ih =>
    rw [List.filter_cons]
    by_cases hh : hd.1 = k
    · rw [if_neg (by simp [hh])]
      exact ih
    · rw [if_pos (by simp [hh])]
      rw [show dictLookup (hd :: List.filter (fun p => decide (p.1 ≠ k)) tl) k
            = if hd.1 = k then some hd.2
              else dictLookup (List.filter (fun p => decide (p.1 ≠ k)) tl) k from rfl]
      rw [if_neg hh]
      exact ih

theorem dictLookup_filter_ne {κ α : Type} [DecidableEq κ] (m : List (κ × α)) (k key : κ)
    (hne : key ≠ k) :
    dictLookup (m.filter (fun p => decide (p.1 ≠ k))) key = dictLookup m key := by
  induction m with
  | nil => rfl
  | cons hd tl ih =>
    rw [List.filter_cons]
    rw [show dictLookup (hd :: tl) key
          = if hd.1 = key then some hd.2 else dictLookup tl key from rfl]
    by_cases hh : hd.1 = k
    · rw [if_neg (by simp [hh])]
      have h2 : ¬ hd.1 = key := by rw [hh]; exact fun he => hne he.symm
      rw [if_neg h2]
      exact ih
    · rw [if_pos (by simp [hh])]
      rw [show dictLookup (hd :: List.filter (fun p => decide (p.1 ≠ k)) tl) key
            = if hd.1 = key then some hd.2
              else dictLookup (List.filter (fun p => decide (p.1 ≠ k)) tl) key from rfl]
      rw [ih]

/-- `dictPop` returns exactly the looked-up value. -/
theorem dictPop_fst {κ α : Type} [DecidableEq κ] (m : List (κ × α)) (k : κ) :
    (dictPop m k).1 = dictLookup m k := by
  unfold dictPop
  cases h : dictLookup m k <;> simp

/-- Lookup after `dictPop`: the popped key is gone, every other key is
untouched. -/
theorem dictLookup_dictPop {κ α : Type} [DecidableEq κ] (m : List (κ × α)) (k key : κ) :
    dictLookup (dictPop m k).2 key
      = if key = k then none else dictLookup m key := by
  unfold dictPop
  cases h : dictLookup m k with
  | none =>
    by_cases he : key = k
    · subst he; simp [h]
    · simp [he]
  | some v =>
    show dictLookup (m.filter (fun p => decide (p.1 ≠ k))) key
      = if key = k then none else dictLookup m key
    by_cases he : key = k
    · subst he
      rw [if_pos rfl]
      exact dictLookup_filter_self m key
    · rw [if_neg he]
      exact dictLookup_filter_ne m k key he

/-- `get_profile` never touches the `_windows` registry. -/
theorem get_profile_windows (env : QtEnv) (s : BrowserState) (fp : Nat) (priv : Bool) :
    ((get_profile env s fp priv).2.1).windows = s.windows := by
  cases priv with
  | true => rfl
  | false =>
    cases hp : s.profile with
    | some p => simp [get_profile, hp]
    | none => simp [get_profile, hp]

/-- Inside a sequence of calls, a profile is constructed only when
`_profile` is still unset, and afterwards it is set. -/
theorem run_get_profile_createCount (env : QtEnv) (calls : List (Nat × Bool)) :
    ∀ s : BrowserState,
      createCount (run_get_profile env s calls).2
        ≤ (if s.profile.isSome then 0 else 1) := by
  induction calls with
  | nil =>
    intro s
    simp [run_get_profile, createCount]
  | cons c more ih =>
    intro s
    show createCount ((get_profile env s c.1 c.2).2.2
        ++ (run_get_profile env (get_profile env s c.1 c.2).2.1 more).2) ≤ _
    rw [show createCount ((get_profile env s c.1 c.2).2.2
          ++ (run_get_profile env (get_profile env s c.1 c.2).2.1 more).2)
        = createCount (get_profile env s c.1 c.2).2.2
          + createCount (run_get_profile env (get_profile env s c.1 c.2).2.1 more).2
      from List.countP_append _ _ _]
    cases hc : c.2 with
    | true =>
      have h1 : get_profile env s c.1 true = (env.defaultProfile, s, []) := rfl
      rw [h1]
      simpa [createCount] using ih s
    | false =>
      cases hp : s.profile with
      | some p =>
        have h1 : get_profile env s c.1 false = (p, s, []) := by
          simp [get_profile, hp]
        rw [h1]
        simpa [createCount, hp] using ih s
      | none =>
        have h1 : (get_profile env s c.1 false).2.1.profile.isSome = true := by
          simp [get_profile, hp]
        have h2 : createCount (get_profile env s c.1 false).2.2 ≤ 1 := by
          simp [get_profile, hp, createCount]
        have h3 := ih (get_profile env s c.1 false).2.1
        rw [h1] at h3
        simp only [if_pos rfl] at h3
        have h4 : createCount (run_get_profile env (get_profile env s c.1 false).2.1 more).2 = 0 :=
          Nat.le_zero.mp h3
        rw [h4]
        simp [hp]
        omega

/-! ## Claim theorems -/

/-- C1: the Browser keeps a registry of open windows as a mapping from
window identity to window object. `create_hidden_window`, `create_window`
and `create_dev_tools_window` each insert the newly created window under
`id(window)` (all other entries untouched) with the dict mutation
performed under the state lock; the `about_to_close` handler
`_remove_window` removes exactly the sender's entry, also under the lock;
and `each_window` yields exactly the values currently in the registry. -/
theorem C1_window_registry (env : QtEnv) (s : BrowserState) (fp fw : Nat) (priv : Bool)
    (key : Nat) :
    (dictLookup ((create_hidden_window env s fp fw priv).2.1).windows key
       = if key = fw then some (create_hidden_window env s fp fw priv).1
         else dictLookup s.windows key) ∧
    ((create_hidden_window env s fp fw priv).1).wid = fw ∧
    locked_mutations (create_hidden_window env s fp fw priv).2.2 0 = true ∧
    (dictLookup ((create_window env s fp fw priv).2.1).windows key
       = if key = fw then some (create_window env s fp fw priv).1
         else dictLookup s.windows key) ∧
    (dictLookup ((create_dev_tools_window env s fp fw priv).2.1).windows key
       = if key = fw then some (create_dev_tools_window env s fp fw priv).1
         else dictLookup s.windows key) ∧
    ((create_dev_tools_window env s fp fw priv).1).wid = fw ∧
    locked_mutations (create_dev_tools_window env s fp fw priv).2.2 0 = true ∧
    (dictLookup (((remove_window s fw).1).1).windows key
       = if key = fw then none else dictLookup s.windows key) ∧
    ((remove_window s fw).1).2 = dictLookup s.windows fw ∧
    locked_mutations (remove_window s fw).2 0 = true ∧
    each_window s = s.windows.map Prod.snd := by
  refine ⟨?_, rfl, rfl, ?_, ?_, rfl, rfl, ?_, ?_, rfl, rfl⟩
  · show dictLookup (dictInsert ((get_profile env s fp priv).2.1).windows fw _) key = _
    rw [get_profile_windows, dictLookup_dictInsert]
    rfl
  · show dictLookup (dictInsert ((get_profile env s fp priv).2.1).windows fw _) key = _
    rw [get_profile_windows, dictLookup_dictInsert]
    rfl
  · show dictLookup (dictInsert ((get_profile env s fp priv).2.1).windows fw _) key = _
    rw [get_profile_windows, dictLookup_dictInsert]
    rfl
  · show dictLookup (dictPop s.windows fw).2 key = _
    rw [dictLookup_dictPop]
  · show (dictPop s.windows fw).1 = _
    rw [dictPop_fst]

/-- C9: `Browser._remove_window` is total (modelled by `dict.pop` with a
default, which has no failure case): when the sender is present it is
removed and returned; when it is absent the result is `None` and the
registry — indeed the whole browser state — is unchanged. -/
theorem C9_remove_window_total (s : BrowserState) (wid : Nat) :
    ((remove_window s wid).1).2 = dictLookup s.windows wid ∧
    ((remove_window s wid).1).1
      = (if (dictLookup s.windows wid).isSome
         then { s with windows := s.windows.filter (fun p => decide (p.1 ≠ wid)) }
         else s) ∧
    (∀ k, dictLookup (((remove_window s wid).1).1).windows k
       = if k = wid then none else dictLookup s.windows k) := by
  refine ⟨?_, ?_, ?_⟩
  · show (dictPop s.windows wid).1 = _
    rw [dictPop_fst]
  · show ({ s with windows := (dictPop s.windows wid).2 } : BrowserState) = _
    unfold dictPop
    cases h : dictLookup s.windows wid with
    | some v => simp
    | none => simp
  · intro k
    show dictLookup (dictPop s.windows wid).2 k = _
    rw [dictLookup_dictPop]

/-- C8: `Browser.get_profile` is idempotent per privacy mode. With
`private=True` it returns the toolkit's default profile and changes
nothing; with `private=False` a second call returns the identical profile
object with no further effects; starting from a fresh `Browser`, the first
non-private call constructs the profile named
`applicationName.chromiumVersion`, configures exactly the web-attribute
options of `get_profile`, connects it to the download manager exactly
once, and over any sequence of calls at most one profile is ever
constructed. -/
theorem C8_get_profile_idempotent (env : QtEnv) (s : BrowserState) (f1 f2 : Nat) :
    get_profile env s f1 true = (env.defaultProfile, s, []) ∧
    (get_profile env ((get_profile env s f1 false).2.1) f2 false
       = ((get_profile env s f1 false).1, (get_profile env s f1 false).2.1, [])) ∧
    ((get_profile env Browser.init f1 false).1).name
       = env.applicationName ++ "." ++ env.chromiumVersion ∧
    ((get_profile env Browser.init f1 false).1).offTheRecord = false ∧
    ((get_profile env Browser.init f1 false).1).downloadConnections = 1 ∧
    ((get_profile env Browser.init f1 false).1).attrs = get_profile_options ∧
    (get_profile env Browser.init f1 false).2.2
       = [ProfileEvent.createProfile (env.applicationName ++ "." ++ env.chromiumVersion),
          ProfileEvent.connectDownload] ∧
    (∀ calls : List (Nat × Bool),
       createCount (run_get_profile env Browser.init calls).2 ≤ 1) := by
  refine ⟨rfl, ?_, rfl, rfl, rfl, ?_, rfl, ?_⟩
  · cases hp : s.profile with
    | some p => simp [get_profile, hp]
    | none => simp [get_profile, hp]
  · rfl
  · intro calls
    have h := run_get_profile_createCount env calls Browser.init
    simpa [Browser.init] using h

/-- C2: when `app.exec()` raises, `run_main` prints the traceback to
stderr and the process exits with code 1 (non-zero); when it returns
normally, the process exits with the returned value. -/
theorem C2_run_main_exit (rc : Int) (e : String) :
    run_main_exit (ExecOutcome.exn e) = { exitCode := 1, tracebackPrinted := true } ∧
    (run_main_exit (ExecOutcome.exn e)).exitCode ≠ 0 ∧
    run_main_exit (ExecOutcome.ok rc) = { exitCode := rc, tracebackPrinted := false } := by
  refine ⟨rfl, ?_, rfl⟩
  simp [run_main_exit]

/-- C4: `closeEvent` shows the confirmation dialog exactly when more than
one tab is open; a declined dialog ignores the event and leaves the
browser state (in particular the window registry) untouched; otherwise the
event is accepted, `about_to_close` is emitted — removing the window's
entry from the registry via `_remove_window` — and `deleteLater` is
scheduled. -/
theorem C4_close_event (s : BrowserState) (wid : Nat) (count : Nat) (user : MBResult) :
    (closeEvent count user).dialogShown = decide (count > 1) ∧
    (window_close s wid count user
      = if count > 1 ∧ user = MBResult.no
        then ({ accepted := false, dialogShown := true,
                emittedAboutToClose := false, scheduledDelete := false }, s)
        else ({ accepted := true, dialogShown := decide (count > 1),
                emittedAboutToClose := true, scheduledDelete := true },
              { s with windows := (dictPop s.windows wid).2 })) ∧
    (∀ k, dictLookup ((window_close s wid count user).2).windows k
       = if count > 1 ∧ user = MBResult.no
         then dictLookup s.windows k
         else if k = wid then none else dictLookup s.windows k) := by
  by_cases hc : count > 1
  · cases user with
    | no =>
      refine ⟨by simp [closeEvent, hc], ?_, ?_⟩
      · rw [if_pos ⟨hc, rfl⟩]
        simp [window_close, closeEvent, hc]
      · intro k
        rw [if_pos ⟨hc, rfl⟩]
        simp [window_close, closeEvent, hc]
    | yes =>
      have hni : ¬ (count > 1 ∧ MBResult.yes = MBResult.no) := by
        rintro ⟨-, h⟩; cases h
      refine ⟨by simp [closeEvent, hc], ?_, ?_⟩
      · rw [if_neg hni]
        simp [window_close, closeEvent, hc, remove_window]
      · intro k
        rw [if_neg hni]
        have h2 : (window_close s wid count MBResult.yes).2
            = { s with windows := (dictPop s.windows wid).2 } := by
          simp [window_close, closeEvent, hc, remove_window]
        rw [h2]
        show dictLookup (dictPop s.windows wid).2 k = _
        rw [dictLookup_dictPop]
  · have hni : ¬ (count > 1 ∧ user = MBResult.no) := fun h => hc h.1
    refine ⟨by simp [closeEvent, hc], ?_, ?_⟩
    · rw [if_neg hni]
      simp [window_close, closeEvent, hc, remove_window]
    · intro k
      rw [if_neg hni]
      have h2 : (window_close s wid count user).2
          = { s with windows := (dictPop s.windows wid).2 } := by
        simp [window_close, closeEvent, hc, remove_window]
      rw [h2]
      show dictLookup (dictPop s.windows wid).2 k = _
      rw [dictLookup_dictPop]

/-- C5 (code bug): on a find-text result with zero matches,
`handle_find_text_finished` reads the attribute `_lastSearch`, which is
never assigned (the window only has `_last_search`), so it raises
`AttributeError` instead of showing the "not found" status message; the
non-zero branch works as specified. -/
theorem C5_find_text_zero_matches_raises :
    handle_find_text_finished { last_search := "example" }
        { numberOfMatches := 0, activeMatch := 0 }
      = Except.error ("AttributeError: _lastSearch") ∧
    handle_find_text_finished { last_search := "example" }
        { numberOfMatches := 2, activeMatch := 1 }
      = Except.ok ("\"example\" found: 1/2") := by
  exact ⟨rfl, rfl⟩

/-- `String.append` is associative (used to restate window titles in the
spec's `<title> - <suffix>` shape). -/
theorem string_append_assoc (a b c : String) : a ++ b ++ c = a ++ (b ++ c) := by
  cases a with
  | mk da =>
    cases b with
    | mk db =>
      cases c with
      | mk dc =>
        show String.mk (da ++ db ++ dc) = String.mk (da ++ (db ++ dc))
        rw [List.append_assoc]

/-- C7: on every title change the window title becomes
`<title> - Simple` for a normal profile and `<title> - Simple (Incognito)`
for an off-the-record profile; an empty or absent title yields just the
suffix. -/
theorem C7_title_changed (otr : Bool) (t : String) :
    (handle_web_view_title_changed false (some t)
       = if t = "" then "Simple" else t ++ " - Simple") ∧
    (handle_web_view_title_changed true (some t)
       = if t = "" then "Simple (Incognito)" else t ++ " - Simple (Incognito)") ∧
    handle_web_view_title_changed otr none
       = (if otr then "Simple (Incognito)" else "Simple") := by
  refine ⟨?_, ?_, ?_⟩
  · show (if t = "" then "Simple" else t ++ " - " ++ "Simple") = _
    by_cases h : t = ""
    · rw [if_pos h, if_pos h]
    · rw [if_neg h, if_neg h, string_append_assoc]
      rfl
  · show (if t = "" then "Simple (Incognito)" else t ++ " - " ++ "Simple (Incognito)") = _
    by_cases h : t = ""
    · rw [if_pos h, if_pos h]
    · rw [if_neg h, if_neg h, string_append_assoc]
      rfl
  · cases otr <;> rfl

/-! ## Command-line lemmas (for C3) -/

/-- The parsed flag is set iff `--single-process` or `-s` occurs on the
command line. -/
theorem parse_single_process_iff (argv : List String) :
    (parse_known_args argv).single_process = true
      ↔ ("--single-process" ∈ argv ∨ "-s" ∈ argv) := by
  induction argv with
  | nil => simp [parse_known_args]
  | cons a more ih =>
    by_cases h : a = "--single-process" ∨ a = "-s"
    · rcases h with h | h <;> subst h <;> simp [parse_known_args]
    · have h1 : a ≠ "--single-process" := fun he => h (Or.inl he)
      have h2 : a ≠ "-s" := fun he => h (Or.inr he)
      have h1s : ("--single-process" : String) ≠ a := fun he => h1 he.symm
      have h2s : ("-s" : String) ≠ a := fun he => h2 he.symm
      by_cases hd : a ≠ "-" ∧ a.startsWith ("-")
      · simp [parse_known_args, h, hd, ih, h1s, h2s]
      · simp [parse_known_args, h, hd, ih, h1s, h2s]

/-- argparse consumed every `--single-process` token, so none is left in
the unrecognized leftovers. -/
theorem single_process_not_mem_rest (argv : List String) :
    ¬ "--single-process" ∈ (parse_known_args argv).rest := by
  induction argv with
  | nil => simp [parse_known_args]
  | cons a more ih =>
    by_cases h : a = "--single-process" ∨ a = "-s"
    · simp [parse_known_args, h, ih]
    · have h1 : a ≠ "--single-process" := fun he => h (Or.inl he)
      by_cases hd : a ≠ "-" ∧ a.startsWith ("-")
      · simp [parse_known_args, h, hd, ih]
        exact fun he => h1 he.symm
      · simp [parse_known_args, h, hd, ih]

theorem mem_of_mem_dropWhile {α : Type} (p : α → Bool) (l : List α) (x : α)
    (h : x ∈ l.dropWhile p) : x ∈ l := by
  induction l with
  | nil => exact h
  | cons a t ih =>
    by_cases hp : p a
    · rw [List.dropWhile_cons_of_pos hp] at h
      exact List.mem_cons_of_mem a (ih h)
    · rw [List.dropWhile_cons_of_neg hp] at h
      exact h

theorem mem_of_mem_drop_one {α : Type} (l : List α) (x : α)
    (h : x ∈ l.drop 1) : x ∈ l := by
  cases l with
  | nil => exact h
  | cons a t => exact List.mem_cons_of_mem a h

/-- C3: the `--single-process` token reaches the engine's own command line
(the part of the `QApplication` argument list after `--webEngineArgs`)
exactly when the `--single-process`/`-s` flag was given on the command
line. -/
theorem C3_single_process_flag (argv : List String) (argv0 : String)
    (h0 : argv0 ≠ "--single-process") :
    (("--single-process" ∈ argv ∨ "-s" ∈ argv)
      ↔ "--single-process" ∈ engine_args (build_app_args argv0 (parse_known_args argv))) := by
  constructor
  · intro hmem
    have hf : (parse_known_args argv).single_process = true :=
      (parse_single_process_iff argv).mpr hmem
    unfold build_app_args engine_args
    rw [hf]
    simp only [eq_self_iff_true, if_true, List.cons_append, List.nil_append,
      List.singleton_append]
    by_cases ha : argv0 = "--webEngineArgs"
    · rw [List.dropWhile_cons_of_neg (by simp [ha])]
      simp
    · rw [List.dropWhile_cons_of_pos (by simp [ha])]
      rw [List.dropWhile_cons_of_neg (by simp)]
      simp
  · intro hmem
    by_contra hnot
    have hf : (parse_known_args argv).single_process = false := by
      cases hfv : (parse_known_args argv).single_process with
      | false => rfl
      | true => exact absurd ((parse_single_process_iff argv).mp hfv) hnot
    unfold engine_args build_app_args at hmem
    rw [hf] at hmem
    simp only [if_neg (Bool.false_ne_true), List.append_nil] at hmem
    have hmem2 : "--single-process" ∈ ([argv0] ++ (parse_known_args argv).rest) :=
      mem_of_mem_dropWhile _ _ _ (mem_of_mem_drop_one _ _ hmem)
    rcases List.mem_append.mp hmem2 with hl | hr
    · exact h0 ((List.mem_singleton.mp hl).symm)
    · exact single_process_not_mem_rest argv hr

/-! ## URL-loop lemmas (for C6) -/

/-- Once `content` is set, the loop never reads stdin or loads content
again; the remaining URLs are loaded in order in background tabs. -/
theorem process_urls_go_some (stdin c : String) (urls : List String) :
    loadedUrls (process_urls_go stdin (some c) urls)
        = (urls.filter (fun u => decide (u ≠ "-"))).map (fun u => (u, true)) ∧
    stdinReadCount (process_urls_go stdin (some c) urls) = 0 ∧
    loadedContents (process_urls_go stdin (some c) urls) = [] := by
  induction urls with
  | nil => exact ⟨rfl, rfl, rfl⟩
  | cons u more ih =>
    obtain ⟨i1, i2, i3⟩ := ih
    by_cases h : u = "-"
    · subst h
      exact ⟨i1, i2, i3⟩
    · have he : process_urls_go stdin (some c) (u :: more)
          = MainAction.loadUrlNewTab u true :: process_urls_go stdin (some c) more := by
        simp [process_urls_go, h]
      have hfc : (u :: more).filter (fun x => decide (x ≠ "-"))
          = u :: more.filter (fun x => decide (x ≠ "-")) := by
        simp [List.filter_cons, h]
      refine ⟨?_, ?_, ?_⟩
      · rw [he, hfc]
        show (u, true) :: loadedUrls (process_urls_go stdin (some c) more) = _
        rw [i1]
        rfl
      · rw [he]
        exact i2
      · rw [he]
        exact i3

/-- With `content` still unset, the loop reads stdin exactly once iff a
`-` argument occurs, loads it exactly once as a `text/html` background
tab, and loads every other URL in order in background tabs. -/
theorem process_urls_go_none (stdin : String) (urls : List String) :
    loadedUrls (process_urls_go stdin none urls)
        = (urls.filter (fun u => decide (u ≠ "-"))).map (fun u => (u, true)) ∧
    stdinReadCount (process_urls_go stdin none urls)
        = (if "-" ∈ urls then 1 else 0) ∧
    loadedContents (process_urls_go stdin none urls)
        = (if "-" ∈ urls then [(stdin, "text/html", "about:", true)] else []) := by
  induction urls with
  | nil => exact ⟨rfl, rfl, rfl⟩
  | cons u more ih =>
    obtain ⟨i1, i2, i3⟩ := ih
    by_cases h : u = "-"
    · subst h
      obtain ⟨s1, s2, s3⟩ := process_urls_go_some stdin stdin more
      have hmem : ("-" : String) ∈ ("-" :: more) := List.mem_cons_self _ _
      refine ⟨?_, ?_, ?_⟩
      · show loadedUrls (process_urls_go stdin (some stdin) more) = _
        rw [s1]
        simp [List.filter_cons]
      · show stdinReadCount (process_urls_go stdin (some stdin) more) + 1 = _
        rw [s2, if_pos hmem]
      · show (stdin, "text/html", "about:", true)
            :: loadedContents (process_urls_go stdin (some stdin) more) = _
        rw [s3, if_pos hmem]
    · have hns : ("-" : String) ≠ u := fun he => h he.symm
      have hmem : (("-" : String) ∈ (u :: more)) ↔ (("-" : String) ∈ more) := by
        simp [List.mem_cons, hns]
      have he : process_urls_go stdin none (u :: more)
          = MainAction.loadUrlNewTab u true :: process_urls_go stdin none more := by
        simp [process_urls_go, h]
      have hfc : (u :: more).filter (fun x => decide (x ≠ "-"))
          = u :: more.filter (fun x => decide (x ≠ "-")) := by
        simp [List.filter_cons, h]
      refine ⟨?_, ?_, ?_⟩
      · rw [he, hfc]
        show (u, true) :: loadedUrls (process_urls_go stdin none more) = _
        rw [i1]
        rfl
      · rw [he]
        show stdinReadCount (process_urls_go stdin none more) = _
        rw [i2]
        by_cases hm : ("-" : String) ∈ more
        · rw [if_pos hm, if_pos (hmem.mpr hm)]
        · rw [if_neg hm, if_neg (fun hx => hm (hmem.mp hx))]
      · rw [he]
        show loadedContents (process_urls_go stdin none more) = _
        rw [i3]
        by_cases hm : ("-" : String) ∈ more
        · rw [if_pos hm, if_pos (hmem.mpr hm)]
        · rw [if_neg hm, if_neg (fun hx => hm (hmem.mp hx))]

/-- C6 counterexample: with an empty list of positional URL arguments the
URL block of `run_main` does nothing at all — in particular the initial
blank tab is not discarded — refuting the claim's "for every list". -/
theorem C6_counterexample :
    process_urls ("page") [] = []
      ∧ ¬ MainAction.deleteCurrentTab ∈ process_urls ("page") [] := by
  refine ⟨rfl, ?_⟩
  rw [show process_urls ("page") [] = [] from rfl]
  simp

/-- C6 (amended to non-empty argument lists): for every non-empty list of
positional URL arguments, `run_main` first discards the initial blank tab,
loads each non-`-` URL in a new (background) tab in order, reads stdin
exactly once iff some argument is `-` — loading it as `text/html` content
with base URL `about:` in a background tab — and ignores any further `-`
arguments without reading stdin again. -/
theorem C6_url_arguments (stdin : String) (urls : List String) (h : urls ≠ []) :
    (process_urls stdin urls).head? = some MainAction.deleteCurrentTab ∧
    loadedUrls (process_urls stdin urls)
        = (urls.filter (fun u => decide (u ≠ "-"))).map (fun u => (u, true)) ∧
    stdinReadCount (process_urls stdin urls) = (if "-" ∈ urls then 1 else 0) ∧
    loadedContents (process_urls stdin urls)
        = (if "-" ∈ urls then [(stdin, "text/html", "about:", true)] else []) := by
  obtain ⟨g1, g2, g3⟩ := process_urls_go_none stdin urls
  rw [process_urls, if_neg h]
  exact ⟨rfl, g1, g2, g3⟩

/-- Witness for C6 at `urls = ["-", "a", "-"]`: stdin is read once, the
second `-` is ignored, `a` is loaded in a background tab. -/
theorem C6_url_arguments_witness :
    (process_urls ("html") ["-", "a", "-"]).head? = some MainAction.deleteCurrentTab ∧
    loadedUrls (process_urls ("html") ["-", "a", "-"])
        = ((["-", "a", "-"].filter (fun u => decide (u ≠ "-"))).map (fun u => (u, true))) ∧
    stdinReadCount (process_urls ("html") ["-", "a", "-"])
        = (if "-" ∈ ["-", "a", "-"] then 1 else 0) ∧
    loadedContents (process_urls ("html") ["-", "a", "-"])
        = (if "-" ∈ ["-", "a", "-"] then [("html", "text/html", "about:", true)] else []) :=
  C6_url_arguments ("html") ["-", "a", "-"] (by simp)

/-- Witness for C3 at `argv = ["--single-process", "http://x"]`,
`argv0 = "prog"`. -/
theorem C3_single_process_flag_witness :
    (("--single-process" ∈ ["--single-process", "http://x"]
        ∨ "-s" ∈ ["--single-process", "http://x"])
      ↔ "--single-process"
          ∈ engine_args (build_app_args ("prog")
              (parse_known_args ["--single-process", "http://x"]))) :=
  C3_single_process_flag ["--single-process", "http://x"] ("prog") (by simp)

/-! ## Key-binding lemmas (for C10) -/

theorem remove_backspace_loop_of_first (before after : List KeyBinding) (b : KeyBinding)
    (hbefore : ∀ k ∈ before, is_backspace k = false)
    (hb : is_backspace b = true) :
    remove_backspace_loop (before ++ b :: after) = before ++ after := by
  induction before with
  | nil => simp [remove_backspace_loop, hb]
  | cons x xs ih =>
    have hx : is_backspace x = false := hbefore x (List.mem_cons_self x xs)
    have hxs : ∀ k ∈ xs, is_backspace k = false :=
      fun k hk => hbefore k (List.mem_cons_of_mem x hk)
    simp [remove_backspace_loop, hx, ih hxs]

theorem remove_backspace_loop_of_none (keys : List KeyBinding)
    (hnone : ∀ k ∈ keys, is_backspace k = false) :
    remove_backspace_loop keys = keys := by
  induction keys with
  | nil => rfl
  | cons x xs ih =>
    have hx : is_backspace x = false := hnone x (List.mem_cons_self x xs)
    have hxs : ∀ k ∈ xs, is_backspace k = false :=
      fun k hk => hnone k (List.mem_cons_of_mem x hk)
    simp [remove_backspace_loop, hx, ih hxs]

/-- C10: `remove_backspace` returns a new list equal to its argument with
exactly the first Backspace binding removed (later Backspace bindings and
all other bindings keep their order); when no binding matches, the list is
returned unchanged; and the argument list itself is never mutated (the
function deletes only from its copy). -/
theorem C10_remove_backspace (before after keys : List KeyBinding) (b : KeyBinding)
    (hbefore : ∀ k ∈ before, is_backspace k = false)
    (hb : is_backspace b = true)
    (hnone : ∀ k ∈ keys, is_backspace k = false) :
    (remove_backspace (before ++ b :: after)).1 = before ++ after ∧
    (remove_backspace (before ++ b :: after)).2 = before ++ b :: after ∧
    (remove_backspace keys).1 = keys ∧
    (remove_backspace keys).2 = keys := by
  exact ⟨remove_backspace_loop_of_first before after b hbefore hb, rfl,
    remove_backspace_loop_of_none keys hnone, rfl⟩

/-- Witness for C10: a Shift+Backspace binding (modifier bits set) is
recognized and removed; a later plain Backspace stays; a list without
Backspace is unchanged. -/
theorem C10_remove_backspace_witness :
    (remove_backspace [{ firstKeyCode := 0x01000014, tag := 0 },
        { firstKeyCode := 0x02000000 + 0x01000003, tag := 1 },
        { firstKeyCode := 0x01000003, tag := 2 }]).1
      = [{ firstKeyCode := 0x01000014, tag := 0 },
         { firstKeyCode := 0x01000003, tag := 2 }] ∧
    (remove_backspace [{ firstKeyCode := 0x01000014, tag := 0 },
        { firstKeyCode := 0x02000000 + 0x01000003, tag := 1 },
        { firstKeyCode := 0x01000003, tag := 2 }]).2
      = [{ firstKeyCode := 0x01000014, tag := 0 },
         { firstKeyCode := 0x02000000 + 0x01000003, tag := 1 },
         { firstKeyCode := 0x01000003, tag := 2 }] ∧
    (remove_backspace [{ firstKeyCode := 0x01000014, tag := 3 }]).1
      = [{ firstKeyCode := 0x01000014, tag := 3 }] ∧
    (remove_backspace [{ firstKeyCode := 0x01000014, tag := 3 }]).2
      = [{ firstKeyCode := 0x01000014, tag := 3 }] :=
  C10_remove_backspace [{ firstKeyCode := 0x01000014, tag := 0 }]
    [{ firstKeyCode := 0x01000003, tag := 2 }]
    [{ firstKeyCode := 0x01000014, tag := 3 }]
    { firstKeyCode := 0x02000000 + 0x01000003, tag := 1 }
    (by intro k hk; simp at hk; subst hk; decide)
    (by decide)
    (by intro k hk; simp at hk; subst hk; decide)

end Ensync
